import Mathlib

/-!
Verification of the VANMOKUM configurator core: a shallow embedding of the
procedural geometry pipeline (canopy layout, pendant placement, cable
generation, scene assembly) and its binary scene exporter, together with
theorems settling the specified properties.

Sources embedded: app/builder/geometry.py, app/builder/exporter.py,
app/builder/build.py, app/builder/materials.py, app/settings.py, app/schema.py.

Conventions of the embedding:
* machine floats become exact reals (arithmetic identities of the layout
  solver and UV generator are exact in the source's formulas);
* byte strings become `List ℕ` (one entry per byte);
* external collaborators that are not part of this repository (rhino3dm's
  rotation constructor, Python's Mersenne-Twister generator, `json.dumps`,
  IEEE-754 `struct.pack` of floats) are modelled as explicit parameters or
  as deterministic stand-ins, each marked in its doc comment.
-/

/-! ## Byte-level helpers (exporter.py lines 9-19, 157-167) -/

/-- Little-endian bytes of a 32-bit unsigned integer, as written by
`struct.pack "<I"`.  `struct.pack` refuses values at or above `2 ^ 32`;
the embedding reduces modulo `2 ^ 32` instead, and theorems that read the
field back assume the packed value fits. -/
def u32le (k : ℕ) : List ℕ :=
  [k % 256, k / 256 % 256, k / 2 ^ 16 % 256, k / 2 ^ 24 % 256]

/-- Decode a little-endian 32-bit unsigned integer from the first four
bytes of a byte list. -/
def readU32 (bs : List ℕ) : ℕ :=
  bs.getD 0 0 + 256 * bs.getD 1 0 + 2 ^ 16 * bs.getD 2 0 + 2 ^ 24 * bs.getD 3 0

/-- Embeds `pad_to_4` (exporter.py lines 9-12): append zero bytes until the
length is a multiple of 4.  The source's `while` loop appends
`(4 - len % 4) % 4` zeros, written here in closed form. -/
def pad_to_4 (data : List ℕ) : List ℕ :=
  data ++ List.replicate ((4 - data.length % 4) % 4) 0

/-- Embeds `pad_json_to_4` (exporter.py lines 15-19): append ASCII space
bytes (0x20) to the UTF-8 encoded JSON until the length is a multiple
of 4.  The argument is the already-encoded byte list. -/
def pad_json_to_4 (data : List ℕ) : List ℕ :=
  data ++ List.replicate ((4 - data.length % 4) % 4) 32

/-- ASCII bytes of the magic tag b"glTF". -/
def glbMagic : List ℕ := [103, 108, 84, 70]

/-- ASCII bytes of the JSON chunk type tag b"JSON". -/
def jsonChunkTag : List ℕ := [74, 83, 79, 78]

/-- ASCII bytes of the binary chunk type tag b"BIN\x00". -/
def binChunkTag : List ℕ := [66, 73, 78, 0]

/-- Embeds the container framing of `save_mesh_groups_as_glb`
(exporter.py lines 157-167): 12-byte header (magic, version 2, total
length), then the space-padded JSON chunk and the zero-padded binary
chunk, each preceded by its own 8-byte (length, type tag) header.
`jsonPayload` is the UTF-8 encoding of `json.dumps(gltf)` (external),
`binPayload` the concatenation of all per-primitive buffers. -/
def glb_container (jsonPayload binPayload : List ℕ) : List ℕ :=
  let json_chunk := pad_json_to_4 jsonPayload
  let bin_chunk := pad_to_4 binPayload
  let total := 12 + 8 + json_chunk.length + 8 + bin_chunk.length
  (glbMagic ++ u32le 2 ++ u32le total)
    ++ (u32le json_chunk.length ++ jsonChunkTag) ++ json_chunk
    ++ (u32le bin_chunk.length ++ binChunkTag) ++ bin_chunk

/-! ## First-seen deduplication (build.py lines 43-47) -/

/-- Specification-side rendering of "first-seen order with duplicates
collapsed": keep each key's first occurrence, deleting all its later
occurrences, recursively. -/
def first_seen_dedup : List String → List String
  | [] => []
  | k :: ks => k :: first_seen_dedup (ks.filter (fun x => x ≠ k))
termination_by l => l.length
decreasing_by
  simp only [List.length_cons]
  exact Nat.lt_succ_of_le (List.length_filter_le _ _)

/-! ## Schema (app/schema.py), after pydantic validation -/

/-- Embeds `ClusterType` (schema.py). -/
inductive ClusterType
  | ring
  | ring_with_center
  | random_ring
deriving DecidableEq

/-- Embeds `CanopySize = Literal["s", "m", "l"]` (schema.py). -/
inductive CanopySize
  | s
  | m
  | l
deriving DecidableEq

/-- Embeds `PendantConfig` (schema.py).  Appearance literals are plain
strings here; the schema restricts them to the shade preset keys. -/
structure PendantConfig where
  model : String
  appearance : String
deriving DecidableEq

/-- Embeds `LayoutConfig` (schema.py) after validation: `cluster_type`
has been defaulted, so it is always present. -/
structure LayoutConfig where
  cluster_type : ClusterType
  first_drop_mm : ℤ
  total_drop_mm : ℤ
deriving DecidableEq

/-- Embeds `CanopyConfig` (schema.py). -/
structure CanopyConfig where
  size : CanopySize
  appearance : String
deriving DecidableEq

/-- Embeds `CableConfig` (schema.py). -/
structure CableConfig where
  appearance : String
deriving DecidableEq

/-- Embeds `ClusterConfig` (schema.py) after validation. -/
structure ClusterConfig where
  canopy : CanopyConfig
  cable : CableConfig
  layout : LayoutConfig
  pendants : List PendantConfig
  random_seed : ℕ
deriving DecidableEq

/-- Embeds `ClusterConfig.num_pendants` (schema.py). -/
def ClusterConfig.num_pendants (c : ClusterConfig) : ℕ := c.pendants.length

/-! ## Settings (app/settings.py) -/

/-- One entry of `CANOPY_SPECS` (settings.py): physical dimensions in mm. -/
structure CanopySpec where
  outer_radius_mm : ℚ
  inner_radius_mm : ℚ
  cable_offset_mm : ℚ
  height_mm : ℚ
  plate_thickness_mm : ℚ
deriving DecidableEq

/-- Embeds `CANOPY_SPECS` (settings.py); 1.5 mm plate thickness is 3/2. -/
def CANOPY_SPECS : CanopySize → CanopySpec
  | .s => ⟨150, 130, 20, 40, 3 / 2⟩
  | .m => ⟨300, 280, 30, 40, 3 / 2⟩
  | .l => ⟨450, 430, 30, 40, 3 / 2⟩

/-- Embeds `CABLE_RADIUS_MM = 2.5` (settings.py). -/
def CABLE_RADIUS_MM : ℚ := 5 / 2

/-! ## Material presets (app/builder/materials.py) -/

/-- The `pbrMetallicRoughness` record of a preset (materials.py). -/
structure PbrParams where
  baseColorFactor : List ℚ
  metallicFactor : ℚ
  roughnessFactor : ℚ
deriving DecidableEq

/-- One entry of `MATERIAL_PRESETS` (materials.py). -/
structure MaterialPreset where
  name : String
  pbr : PbrParams
deriving DecidableEq

/-- Embeds the `MATERIAL_PRESETS` table (materials.py); the float
literals are written as exact rationals. -/
def MATERIAL_PRESETS : String → Option MaterialPreset
  | "canopy_white" => some ⟨"CanopyWhite", ⟨[19/20, 19/20, 19/20, 1], 0, 3/5⟩⟩
  | "canopy_black" => some ⟨"CanopyBlack", ⟨[1/20, 1/20, 1/20, 1], 0, 13/20⟩⟩
  | "cable_white" => some ⟨"CableWhite", ⟨[23/25, 23/25, 23/25, 1], 0, 4/5⟩⟩
  | "cable_black" => some ⟨"CableBlack", ⟨[3/100, 3/100, 3/100, 1], 0, 17/20⟩⟩
  | "shade_white" => some ⟨"ShadeWhite", ⟨[41/50, 81/100, 39/50, 1], 0, 19/20⟩⟩
  | "shade_blonde" => some ⟨"ShadeBlonde", ⟨[12/25, 2/5, 13/50, 1], 0, 19/20⟩⟩
  | "shade_natural" => some ⟨"ShadeNatural", ⟨[13/100, 9/100, 1/20, 1], 0, 49/50⟩⟩
  | _ => none

/-- The `shade_natural` preset, the source's ultimate fallback. -/
def shadeNaturalPreset : MaterialPreset :=
  ⟨"ShadeNatural", ⟨[13/100, 9/100, 1/20, 1], 0, 49/50⟩⟩

/-- Embeds `get_material_preset` (materials.py): look the key up, fall
back to the `shade_natural` preset for unknown keys. -/
def get_material_preset (key : String) : MaterialPreset :=
  ((MATERIAL_PRESETS key).orElse (fun _ => MATERIAL_PRESETS "shade_natural")).getD
    shadeNaturalPreset

/-! ## Seeded pseudo-randomness

Modelled from the spec: `random.Random(seed)` is Python's Mersenne-Twister
generator, an external collaborator (not part of this repository's source).
The spec requires only that the shuffle and the twist draws come from a
single deterministic sequence derived solely from the configuration's
random seed, threaded explicitly through one planning call.  The stand-in
below is an explicit deterministic mixing function of (seed, draw index). -/

/-- Modelled from the spec: the raw 64-bit draw of the seeded generator at
draw index `k`; a fixed deterministic function of the seed only. -/
def rng_mix (seed k : ℕ) : ℕ :=
  (seed * 6364136223846793005 + k * 1442695040888963407 + 1013904223) % 2 ^ 64

/-- Modelled from the spec: the state of one seeded generator instance,
scoped to a single planning call: its seed and how many draws were made. -/
structure PyRandom where
  seed : ℕ
  counter : ℕ
deriving DecidableEq

/-- Advance the generator by one draw. -/
def PyRandom.step (r : PyRandom) : PyRandom := ⟨r.seed, r.counter + 1⟩

/-- Modelled from the spec: one bounded integer draw, as consumed by the
shuffle. -/
def PyRandom.randbelow (r : PyRandom) (bound : ℕ) : ℕ × PyRandom :=
  (rng_mix r.seed r.counter % bound, r.step)

/-- Swap two positions of a list, as in Python's
`x[i], x[j] = x[j], x[i]`. -/
def list_swap (l : List ℕ) (i j : ℕ) : List ℕ :=
  (l.set i (l.getD j 0)).set j (l.getD i 0)

/-- Modelled from the spec: the Fisher-Yates loop of `random.shuffle`;
for `i` from `len - 1` down to 1, draw `j` below `i + 1` and swap.  The
recursion argument is the current index `i`. -/
def fisher_yates (l : List ℕ) (r : PyRandom) : ℕ → List ℕ × PyRandom
  | 0 => (l, r)
  | i + 1 =>
    let jr := r.randbelow (i + 2)
    fisher_yates (list_swap l (i + 1) jr.1) jr.2 i

/-- Modelled from the spec: `rng.shuffle(indices)`, in place in the
source, value-passing here. -/
def PyRandom.shuffle (r : PyRandom) (l : List ℕ) : List ℕ × PyRandom :=
  fisher_yates l r (l.length - 1)

/-! ## Geometry (app/builder/geometry.py)

Vertex coordinates are exact reals; `rhino3dm.Mesh` becomes a vertex list
plus a face list.  `rhino3dm.Transform.Rotation(angle, axis, origin)` is
an external collaborator; the whole pipeline is parameterized over it as
`Rot : ℝ → Vec3 → Vec3 → Vec3` (angle, axis, point to map). -/

/-- A point or vector in the internal millimeter Z-up frame. -/
abbrev Vec3 := ℝ × ℝ × ℝ

/-- A mesh face: `Faces.AddFace` with three ids is a triangle, with four
a quad. -/
inductive MeshFace
  | tri (a b c : ℕ)
  | quad (a b c d : ℕ)
deriving DecidableEq

/-- Embeds `rhino3dm.Mesh` as used by this pipeline: vertex positions and
faces (normals are computed by the external library and never read back
by the exporter, so they are not carried). -/
structure Mesh where
  verts : List Vec3
  faces : List MeshFace

instance : Inhabited Mesh := ⟨⟨[], []⟩⟩

/-- Pointwise translation, `rhino3dm.Transform.Translation(dx, dy, dz)`. -/
def translation (dx dy dz : ℝ) : Vec3 → Vec3 :=
  fun p => (p.1 + dx, p.2.1 + dy, p.2.2 + dz)

/-- Applying an affine map to a mesh (`mesh.Transform(t)`, value-passing
here: the source mutates in place, the heap model below keeps track of
which object is written). -/
def Mesh.transform (f : Vec3 → Vec3) (m : Mesh) : Mesh :=
  ⟨m.verts.map f, m.faces⟩

/-- Cross product, `rhino3dm.Vector3d.CrossProduct`. -/
def cross3 (a b : Vec3) : Vec3 :=
  (a.2.1 * b.2.2 - a.2.2 * b.2.1,
   a.2.2 * b.1 - a.1 * b.2.2,
   a.1 * b.2.1 - a.2.1 * b.1)

/-- Euclidean length of a vector, `rhino3dm.Vector3d.Length()`. -/
noncomputable def vector_length (v : Vec3) : ℝ :=
  Real.sqrt (v.1 ^ 2 + v.2.1 ^ 2 + v.2.2 ^ 2)

/-- Embeds `create_cylinder_mesh` (geometry.py lines 20-44).  Vertex ids
follow `Vertices.Add` order: bottom and top ring vertex of segment `i`
are ids `2i` and `2i + 1`; the bottom and top center are ids
`2 * segments` and `2 * segments + 1`.  Face order: side quads, then the
two cap triangles per segment.  `Normals.ComputeNormals()` and
`Compact()` are external post-passes that do not change vertices or
faces. -/
noncomputable def create_cylinder_mesh (radius height : ℝ) (segments : ℕ) : Mesh :=
  let verts :=
    ((List.range segments).map (fun i =>
      let a := 2 * Real.pi * i / segments
      [(radius * Real.cos a, radius * Real.sin a, (0 : ℝ)),
       (radius * Real.cos a, radius * Real.sin a, height)])).flatten
    ++ [((0 : ℝ), (0 : ℝ), (0 : ℝ)), ((0 : ℝ), (0 : ℝ), height)]
  let side := (List.range segments).map (fun i =>
    let i2 := (i + 1) % segments
    MeshFace.quad (2 * i) (2 * i2) (2 * i2 + 1) (2 * i + 1))
  let caps := ((List.range segments).map (fun i =>
    let i2 := (i + 1) % segments
    [MeshFace.tri (2 * segments) (2 * i2) (2 * i),
     MeshFace.tri (2 * segments + 1) (2 * i + 1) (2 * i2 + 1)])).flatten
  ⟨verts, side ++ caps⟩

/-- Embeds `math.atan2` (external, Python's math module): the standard
two-argument arctangent; note the argument order `atan2(y, x)`. -/
noncomputable def math_atan2 (y x : ℝ) : ℝ :=
  if 0 < x then Real.arctan (y / x)
  else if x < 0 then
    (if 0 ≤ y then Real.arctan (y / x) + Real.pi else Real.arctan (y / x) - Real.pi)
  else if 0 < y then Real.pi / 2
  else if y < 0 then -(Real.pi / 2)
  else 0

open Classical in
/-- Embeds `_rotation_from_z` (geometry.py lines 47-63): unitize the
direction, clamp the dot product with +Z, return identity near +Z, a
half-turn about X near -Z, and otherwise the rotation about
`cross(z, d)` by `acos(dot)`, all through the external rotation
constructor `Rot`. -/
noncomputable def rotation_from_z (Rot : ℝ → Vec3 → Vec3 → Vec3)
    (direction : Vec3) : Vec3 → Vec3 :=
  let len := vector_length direction
  let d : Vec3 := (direction.1 / len, direction.2.1 / len, direction.2.2 / len)
  let dot := max (-1 : ℝ) (min 1 d.2.2)
  if |dot - 1| < 1e-8 then id
  else if |dot + 1| < 1e-8 then Rot Real.pi (1, 0, 0)
  else Rot (Real.arccos dot) (cross3 (0, 0, 1) d)

/-- Embeds `build_canopy` (geometry.py lines 71-104): the two canopy
discs and the ordered attachment points.  `max(0, n - 1)` is ℕ
subtraction; the `max 1` in the denominators mirrors `max(1, ...)` in
the source. -/
noncomputable def build_canopy (size : CanopySize) (n_pendants : ℕ)
    (cluster_type : ClusterType) : Mesh × Mesh × List Vec3 :=
  let spec := CANOPY_SPECS size
  let r_in : ℝ := (spec.inner_radius_mm : ℝ)
  let r_out : ℝ := (spec.outer_radius_mm : ℝ)
  let offset : ℝ := (spec.cable_offset_mm : ℝ)
  let height : ℝ := (spec.height_mm : ℝ)
  let plate : ℝ := (spec.plate_thickness_mm : ℝ)
  let bottom := (create_cylinder_mesh r_out plate 96).transform (translation 0 0 (-height))
  let top := (create_cylinder_mesh (r_in + plate) (height - plate) 96).transform
    (translation 0 0 (-(height - plate)))
  let conn_r := r_in - offset
  let zc := -height
  let wants_center :=
    cluster_type = ClusterType.ring_with_center ∨ cluster_type = ClusterType.random_ring
  let points : List Vec3 :=
    if wants_center then
      ((List.range (n_pendants - 1)).map (fun i : ℕ =>
        let a := 2 * Real.pi * (i : ℝ) / ((max 1 (n_pendants - 1) : ℕ) : ℝ)
        (conn_r * Real.cos a, conn_r * Real.sin a, zc)))
      ++ [((0 : ℝ), (0 : ℝ), zc)]
    else
      (List.range n_pendants).map (fun i : ℕ =>
        let a := 2 * Real.pi * (i : ℝ) / ((max 1 n_pendants : ℕ) : ℝ)
        (conn_r * Real.cos a, conn_r * Real.sin a, zc))
  (bottom, top, points)

/-- The memoized pendant template store: the tuple of meshes that
`_load_pendant_meshes(model_key)` returns for each model key.  The .3dm
vendor files are external content, so the store is a parameter of the
pipeline.  (`get_pendant_path` raises for unknown keys; configurations
settled here only use keys the store defines.) -/
abbrev MeshStore := String → List Mesh

/-- Embeds `_pendant_extents` (geometry.py lines 118-128): union the
bounding boxes of the template meshes, return `(Max.Z, -Min.Z)`.  The
fold over all vertex Z coordinates is the bounding-box union; the source
raises on a model with no vertices, which the store parameter rules
out. -/
noncomputable def pendant_extents (meshes : List Mesh) : ℝ × ℝ :=
  let zs := ((meshes.map Mesh.verts).flatten).map (fun v => v.2.2)
  (zs.foldl max (zs.headD 0), -(zs.foldl min (zs.headD 0)))

/-- Embeds `PendantPlacement` (geometry.py lines 131-136).  The source
field `end` is a reserved word in Lean and is called `ending` here. -/
structure PendantPlacement where
  pendant : PendantConfig
  start : Vec3
  ending : Vec3
  meshes : List Mesh

instance : Inhabited PendantPlacement :=
  ⟨⟨⟨"", ""⟩, ((0 : ℝ), 0, 0), ((0 : ℝ), 0, 0), []⟩⟩

/-- The vector from a placement's start to its end, as computed at
geometry.py line 235. -/
def segment_vector (pl : PendantPlacement) : Vec3 :=
  (pl.ending.1 - pl.start.1, pl.ending.2.1 - pl.start.2.1, pl.ending.2.2 - pl.start.2.2)

/-! ### The drop-distance solver (geometry.py lines 161-173) -/

/-- Embeds lines 164-166: `occupied = tops[0] + bottoms[-1]` plus
`bottoms[i] + tops[i + 1]` for `i in range(n - 1)`. -/
noncomputable def occupied_clearance (tops bottoms : List ℝ) : ℝ :=
  tops.headD 0 + bottoms.getLastD 0
    + ∑ i ∈ Finset.range (tops.length - 1), (bottoms.getD i 0 + tops.getD (i + 1) 0)

/-- Embeds lines 168-169: `available = total - first`;
`gap = 0.0 if n <= 1 else (available - occupied) / (n - 1)`. -/
noncomputable def layout_gap (n : ℕ) (first total occupied : ℝ) : ℝ :=
  if n ≤ 1 then 0 else (total - first - occupied) / ((n : ℝ) - 1)

/-- Embeds lines 171-173: `drops = [first]`, then for `i in range(n - 1)`
append `drops[-1] + bottoms[i] + tops[i + 1] + gap`.  Here
`n = tops.length`. -/
noncomputable def python_drops (first g : ℝ) (tops bottoms : List ℝ) : List ℝ :=
  (List.range (tops.length - 1)).foldl
    (fun acc i => acc ++ [acc.getLastD 0 + bottoms.getD i 0 + tops.getD (i + 1) 0 + g])
    [first]

/-! ### Assignment order (geometry.py lines 175-186) -/

/-- Stable insertion into a list already in `le`-order; together with
`stable_sort` this models Python's stable `sorted`. -/
def stable_insert (le : ℕ → ℕ → Bool) (a : ℕ) : List ℕ → List ℕ
  | [] => [a]
  | b :: bs => if le a b then a :: b :: bs else b :: stable_insert le a bs

/-- Stable sort of an index list by a boolean comparison; models
`sorted(range(n), key=...)` (any two stable sorts by a total preorder
agree). -/
def stable_sort (le : ℕ → ℕ → Bool) : List ℕ → List ℕ
  | [] => []
  | a :: as => stable_insert le a (stable_sort le as)

open Classical in
/-- Modelled from the spec: the random value `rng.random()` of the
seeded generator at draw index `k`, a real in [0, 1) that is a
deterministic function of the seed only (the exact Mersenne-Twister
value is external). -/
noncomputable def rng_float (seed k : ℕ) : ℝ :=
  ((rng_mix seed k % 2 ^ 53 : ℕ) : ℝ) / 2 ^ 53

open Classical in
/-- Embeds `place_pendants_then_plan_cables` (geometry.py lines 143-220),
value-passing: per-pendant extents and private template copies, the
drop-distance solve, angular sorting (and the seeded shuffle for
`random_ring`), then per pendant the random twist about +Z followed by
the translation to the suspension point.  The generator is created from
`config.random_seed` only and threaded explicitly: the shuffle consumes
its draws first, then twist draw `i` is the generator's next draw after
`i` further steps. -/
noncomputable def place_pendants_then_plan_cables (Rot : ℝ → Vec3 → Vec3 → Vec3)
    (store : MeshStore) (config : ClusterConfig)
    (connection_points : List Vec3) : List PendantPlacement :=
  let n := config.pendants.length
  let rng : PyRandom := ⟨config.random_seed, 0⟩
  let tops := config.pendants.map (fun p => (pendant_extents (store p.model)).1)
  let bottoms := config.pendants.map (fun p => (pendant_extents (store p.model)).2)
  let meshes_by_index := config.pendants.map (fun p => store p.model)
  let first : ℝ := (config.layout.first_drop_mm : ℝ)
  let total : ℝ := (config.layout.total_drop_mm : ℝ)
  let occupied := occupied_clearance tops bottoms
  let g := layout_gap n first total occupied
  let drops := python_drops first g tops bottoms
  let sorted_shuffled : List ℕ × PyRandom :=
    if 1 < n ∧ (config.layout.cluster_type = ClusterType.ring
        ∨ config.layout.cluster_type = ClusterType.ring_with_center
        ∨ config.layout.cluster_type = ClusterType.random_ring) then
      let le : ℕ → ℕ → Bool := fun i j =>
        decide (math_atan2 (connection_points.getD i ((0 : ℝ), 0, 0)).2.1
            (connection_points.getD i ((0 : ℝ), 0, 0)).1
          ≤ math_atan2 (connection_points.getD j ((0 : ℝ), 0, 0)).2.1
            (connection_points.getD j ((0 : ℝ), 0, 0)).1)
      let sorted := stable_sort le (List.range n)
      if config.layout.cluster_type = ClusterType.random_ring then rng.shuffle sorted
      else (sorted, rng)
    else (List.range n, rng)
  let indices := sorted_shuffled.1
  let rng1 := sorted_shuffled.2
  (List.range n).map (fun i =>
    let sp := connection_points.getD (indices.getD i 0) ((0 : ℝ), 0, 0)
    let drop := drops.getD i 0
    let endp : Vec3 := (sp.1, sp.2.1, sp.2.2 - drop)
    let twist := rng_float rng1.seed (rng1.counter + i) * (2 * Real.pi)
    let rot := Rot twist ((0 : ℝ), 0, 1)
    let placed := (meshes_by_index.getD i []).map (fun m =>
      (m.transform rot).transform (translation endp.1 endp.2.1 endp.2.2))
    ⟨config.pendants.getD i ⟨"", ""⟩, sp, endp, placed⟩)

/-! ### Cables (geometry.py lines 227-246) -/

/-- The cable mesh one placement contributes (geometry.py lines 240-242):
a cylinder of the cable radius and the segment's length, aligned to the
segment direction and translated to the start point. -/
noncomputable def cable_mesh_of (Rot : ℝ → Vec3 → Vec3 → Vec3)
    (pl : PendantPlacement) : Mesh :=
  ((create_cylinder_mesh (CABLE_RADIUS_MM : ℝ) (vector_length (segment_vector pl)) 32).transform
      (rotation_from_z Rot (segment_vector pl))).transform
    (translation pl.start.1 pl.start.2.1 pl.start.2.2)

open Classical in
/-- Whether a placement's segment survives the degeneracy check at
geometry.py line 237 (`length < 1e-6` is skipped). -/
noncomputable def long_enough (pl : PendantPlacement) : Bool :=
  decide (¬ vector_length (segment_vector pl) < 1e-6)

open Classical in
/-- Embeds `build_cables_from_placements` (geometry.py lines 227-246):
for each placement in order, skip silently when the segment length is
below 1e-6, otherwise append the cable mesh and the placement's end
point. -/
noncomputable def build_cables_from_placements (Rot : ℝ → Vec3 → Vec3 → Vec3)
    (placements : List PendantPlacement) : List Mesh × List Vec3 :=
  placements.foldl
    (fun acc pl =>
      if vector_length (segment_vector pl) < 1e-6 then acc
      else (acc.1 ++ [cable_mesh_of Rot pl], acc.2 ++ [pl.ending]))
    ([], [])

/-! ## Scene assembly (app/builder/build.py) -/

/-- Embeds `build_mesh_groups` (build.py lines 13-49): build the canopy,
place the pendants, build the cables, then concatenate the mesh groups
(canopy bottom, canopy top, cables in placement order, then every
placement's meshes) tagged with their owning entity's material key, and
collect the material keys in first-seen order with the source's
membership-guarded append loop. -/
noncomputable def build_mesh_groups (Rot : ℝ → Vec3 → Vec3 → Vec3)
    (store : MeshStore) (config : ClusterConfig) :
    List (Mesh × String) × List String :=
  let n := config.num_pendants
  let canopy := build_canopy config.canopy.size n config.layout.cluster_type
  let placements := place_pendants_then_plan_cables Rot store config canopy.2.2
  let cable_meshes := (build_cables_from_placements Rot placements).1
  let mesh_groups : List (Mesh × String) :=
    [(canopy.1, config.canopy.appearance), (canopy.2.1, config.canopy.appearance)]
      ++ cable_meshes.map (fun cm => (cm, config.cable.appearance))
      ++ placements.flatMap (fun pl => pl.meshes.map (fun pm => (pm, pl.pendant.appearance)))
  let material_keys :=
    mesh_groups.foldl (fun acc mg => if mg.2 ∈ acc then acc else acc ++ [mg.2]) []
  (mesh_groups, material_keys)

/-! ## Binary exporter (app/builder/exporter.py lines 22-167) -/

/-- The prefix that selects cylindrical UV mapping (exporter.py line 23). -/
def shade_key_start : String := "shade_"

/-- Embeds `mapping_type_from_material_key` (exporter.py lines 22-23). -/
def mapping_type_from_material_key (key : String) : String :=
  if key.startsWith shade_key_start then "cylindrical" else "planar"

/-- Embeds `compute_planar_uv` (exporter.py lines 26-27); the default
scale 500 is the only scale the source ever uses. -/
noncomputable def compute_planar_uv (x y : ℝ) : ℝ × ℝ :=
  (x / 500 + 0.5, y / 500 + 0.5)

/-- Embeds `compute_cylindrical_uv` (exporter.py lines 30-34); the
default height scale 500 is the only scale the source ever uses. -/
noncomputable def compute_cylindrical_uv (x y z : ℝ) : ℝ × ℝ :=
  (math_atan2 y x / (2 * Real.pi) + 0.5, z / 500 + 0.5)

/-- Embeds `mesh_to_arrays` (exporter.py lines 37-69): positions are the
vertex coordinates converted to the meter Y-up frame by
`(x/1000, z/1000, y/1000)`; UVs come from the pre-conversion coordinates
by the mapping the material key selected; triangles emit three indices
and quads split along the A-C diagonal. -/
noncomputable def mesh_to_arrays (mesh : Mesh) (mapping_type : String) :
    List ℝ × List ℝ × List ℕ :=
  let positions := mesh.verts.flatMap (fun v => [v.1 / 1000, v.2.2 / 1000, v.2.1 / 1000])
  let uvs := mesh.verts.flatMap (fun v =>
    if mapping_type = "cylindrical" then
      [(compute_cylindrical_uv v.1 v.2.1 v.2.2).1, (compute_cylindrical_uv v.1 v.2.1 v.2.2).2]
    else
      [(compute_planar_uv v.1 v.2.1).1, (compute_planar_uv v.1 v.2.1).2])
  let indices := mesh.faces.flatMap (fun f =>
    match f with
    | .tri a b c => [a, b, c]
    | .quad a b c d => [a, b, c, a, c, d])
  (positions, uvs, indices)

/-- A `bufferViews` record of the exported scene graph. -/
structure BufferView where
  buffer : ℕ
  byteOffset : ℕ
  byteLength : ℕ
  target : ℕ
deriving DecidableEq

/-- An `accessors` record of the exported scene graph. -/
structure Accessor where
  bufferView : ℕ
  componentType : ℕ
  count : ℕ
  type : String
deriving DecidableEq

/-- One mesh's single primitive: accessor ids for POSITION and
TEXCOORD_0, the index accessor, and the material index. -/
structure Primitive where
  position : ℕ
  texcoord : ℕ
  indices : ℕ
  material : ℕ
deriving DecidableEq

/-- A `materials` record: preset values plus `doubleSided` (exporter.py
lines 84-93). -/
structure MaterialDef where
  name : String
  pbr : PbrParams
  doubleSided : Bool
deriving DecidableEq

/-- The scene-graph document that `json.dumps` serializes (exporter.py
lines 145-155). -/
structure GltfDoc where
  assetVersion : String
  scene : ℕ
  sceneNodes : List ℕ
  nodes : List ℕ
  meshes : List Primitive
  bufferByteLength : ℕ
  bufferViews : List BufferView
  accessors : List Accessor
  materials : List MaterialDef

/-- The exporter's running state over the mesh-group loop (exporter.py
lines 74-143): emitted byte buffers and the scene-graph records built so
far. -/
structure ExportState where
  buffers : List (List ℕ)
  bufferViews : List BufferView
  accessors : List Accessor
  meshesOut : List Primitive
  nodes : List ℕ

/-- Embeds one iteration of the mesh-group loop (exporter.py lines
96-143): convert the mesh, drop it if it has no indices, else pack and
pad the three buffers (`f32` is the external IEEE-754 little-endian
float32 packer), record offsets cumulatively, and append buffer views,
accessors, the primitive and its node. -/
noncomputable def export_step (f32 : ℝ → List ℕ) (material_keys : List String)
    (st : ExportState) (mg : Mesh × String) : ExportState :=
  let arrays := mesh_to_arrays mg.1 (mapping_type_from_material_key mg.2)
  if arrays.2.2 = [] then st
  else
    let mat_index := material_keys.indexOf mg.2
    let pos := pad_to_4 (arrays.1.flatMap f32)
    let uv := pad_to_4 (arrays.2.1.flatMap f32)
    let idx := pad_to_4 (arrays.2.2.flatMap u32le)
    let pos_off := (st.buffers.map List.length).sum
    let uv_off := pos_off + pos.length
    let idx_off := uv_off + uv.length
    let bv := st.bufferViews.length
    ⟨st.buffers ++ [pos, uv, idx],
     st.bufferViews ++ [⟨0, pos_off, pos.length, 34962⟩, ⟨0, uv_off, uv.length, 34962⟩,
       ⟨0, idx_off, idx.length, 34963⟩],
     st.accessors ++ [⟨bv, 5126, arrays.1.length / 3, "VEC3"⟩,
       ⟨bv + 1, 5126, arrays.2.1.length / 2, "VEC2"⟩,
       ⟨bv + 2, 5125, arrays.2.2.length, "SCALAR"⟩],
     st.meshesOut ++ [⟨st.accessors.length, st.accessors.length + 1,
       st.accessors.length + 2, mat_index⟩],
     st.nodes ++ [st.meshesOut.length]⟩

/-- Embeds `save_mesh_groups_as_glb` (exporter.py lines 72-167) as the
byte sequence written to the output file.  `f32` packs one float32 and
`jsonEnc` is the UTF-8 encoding of `json.dumps` on the scene document,
both external.  The material index map sends each key to the position at
which the materials loop appended it, which for the builder's duplicate-
free key list is the key's index in `material_keys`. -/
noncomputable def save_mesh_groups_as_glb (f32 : ℝ → List ℕ)
    (jsonEnc : GltfDoc → List ℕ) (mesh_groups : List (Mesh × String))
    (material_keys : List String) : List ℕ :=
  let materials := material_keys.map (fun k =>
    let p := get_material_preset k
    MaterialDef.mk p.name p.pbr true)
  let st := mesh_groups.foldl (export_step f32 material_keys) ⟨[], [], [], [], []⟩
  let gltf : GltfDoc :=
    ⟨"2.0", 0, List.range st.nodes.length, st.nodes, st.meshesOut,
     (st.buffers.map List.length).sum, st.bufferViews, st.accessors, materials⟩
  glb_container (jsonEnc gltf) st.buffers.flatten

/-- The full pipeline a request runs: assemble the scene from the
configuration and serialize it (build.py + exporter.py); the bytes the
caller would write to the cache. -/
noncomputable def config_to_glb_bytes (Rot : ℝ → Vec3 → Vec3 → Vec3)
    (f32 : ℝ → List ℕ) (jsonEnc : GltfDoc → List ℕ) (store : MeshStore)
    (config : ClusterConfig) : List ℕ :=
  let built := build_mesh_groups Rot store config
  save_mesh_groups_as_glb f32 jsonEnc built.1 built.2

/-! ## Reference-semantics model of the planning call (for the
template-immutability property)

Python meshes are mutable heap objects: `mesh.Transform(t)` writes the
object in place, `mesh.Duplicate()` allocates a fresh copy.  The heap
model makes those effects explicit: cells are mesh objects, a reference
is a cell index, the memoized template store holds references into the
initial heap, and the planning call below performs exactly the
duplications and in-place transforms of geometry.py lines 143-220. -/

/-- The object heap: cell `r` holds one mesh object. -/
structure MeshHeap (μ : Type) where
  cells : List μ

/-- Allocate a fresh object, returning its reference (the old length). -/
def MeshHeap.alloc {μ : Type} (h : MeshHeap μ) (m : μ) : MeshHeap μ × ℕ :=
  (⟨h.cells ++ [m]⟩, h.cells.length)

/-- Read the object at a reference. -/
def MeshHeap.read {μ : Type} [Inhabited μ] (h : MeshHeap μ) (r : ℕ) : μ :=
  h.cells.getD r default

/-- Overwrite the object at a reference (an in-place `Transform`). -/
def MeshHeap.write {μ : Type} (h : MeshHeap μ) (r : ℕ) (m : μ) : MeshHeap μ :=
  ⟨h.cells.set r m⟩

/-- `mesh.Duplicate()`: allocate a copy of the object at `r`. -/
def MeshHeap.dup {μ : Type} [Inhabited μ] (h : MeshHeap μ) (r : ℕ) : MeshHeap μ × ℕ :=
  h.alloc (h.read r)

/-- `obj.Transform(f)`: mutate the object at `r` in place. -/
def MeshHeap.transformAt {μ : Type} [Inhabited μ] (f : μ → μ) (h : MeshHeap μ)
    (r : ℕ) : MeshHeap μ :=
  h.write r (f (h.read r))

/-- Duplicate every reference of a template tuple, left to right
(geometry.py line 159: `tuple(m.Duplicate() for m in ...)`). -/
def dup_all {μ : Type} [Inhabited μ] (h : MeshHeap μ) (refs : List ℕ) :
    MeshHeap μ × List ℕ :=
  refs.foldl (fun acc r => let p := acc.1.dup r; (p.1, acc.2 ++ [p.2])) (h, [])

open Classical in
/-- Embeds `place_pendants_then_plan_cables` (geometry.py lines 143-220)
with reference semantics over an abstract mesh-object type `μ`.
`store_refs` is the memoized template store: for each model key, the
references of its template meshes in the initial heap.  `extentsOf`
gives `_pendant_extents` per model key (computed from the static
templates), `rotFn twist` and `transFn endp` are the two external
in-place transforms.  Per pendant the template references are
duplicated once for `meshes_by_index` and once more inside the
placement loop, and only the second copies are transformed in place. -/
noncomputable def place_pendants_heap {μ : Type} [Inhabited μ]
    (rotFn : ℝ → μ → μ) (transFn : Vec3 → μ → μ)
    (store_refs : String → List ℕ) (extentsOf : String → ℝ × ℝ)
    (config : ClusterConfig) (connection_points : List Vec3)
    (h0 : MeshHeap μ) : List (PendantConfig × Vec3 × Vec3 × List ℕ) × MeshHeap μ :=
  let n := config.pendants.length
  let rng : PyRandom := ⟨config.random_seed, 0⟩
  let tops := config.pendants.map (fun p => (extentsOf p.model).1)
  let bottoms := config.pendants.map (fun p => (extentsOf p.model).2)
  let phase1 := config.pendants.foldl
    (fun acc p =>
      let q := dup_all acc.1 (store_refs p.model)
      (q.1, acc.2 ++ [q.2]))
    (h0, ([] : List (List ℕ)))
  let h1 := phase1.1
  let meshes_by_index := phase1.2
  let first : ℝ := (config.layout.first_drop_mm : ℝ)
  let total : ℝ := (config.layout.total_drop_mm : ℝ)
  let g := layout_gap n first total (occupied_clearance tops bottoms)
  let drops := python_drops first g tops bottoms
  let sorted_shuffled : List ℕ × PyRandom :=
    if 1 < n ∧ (config.layout.cluster_type = ClusterType.ring
        ∨ config.layout.cluster_type = ClusterType.ring_with_center
        ∨ config.layout.cluster_type = ClusterType.random_ring) then
      let le : ℕ → ℕ → Bool := fun i j =>
        decide (math_atan2 (connection_points.getD i ((0 : ℝ), 0, 0)).2.1
            (connection_points.getD i ((0 : ℝ), 0, 0)).1
          ≤ math_atan2 (connection_points.getD j ((0 : ℝ), 0, 0)).2.1
            (connection_points.getD j ((0 : ℝ), 0, 0)).1)
      let sorted := stable_sort le (List.range n)
      if config.layout.cluster_type = ClusterType.random_ring then rng.shuffle sorted
      else (sorted, rng)
    else (List.range n, rng)
  let indices := sorted_shuffled.1
  let rng1 := sorted_shuffled.2
  let phase2 := (List.range n).foldl
    (fun acc i =>
      let sp := connection_points.getD (indices.getD i 0) ((0 : ℝ), 0, 0)
      let drop := drops.getD i 0
      let endp : Vec3 := (sp.1, sp.2.1, sp.2.2 - drop)
      let twist := rng_float rng1.seed (rng1.counter + i) * (2 * Real.pi)
      let inner := (meshes_by_index.getD i []).foldl
        (fun bcc r =>
          let pr := MeshHeap.dup bcc.1 r
          let ha := MeshHeap.transformAt (rotFn twist) pr.1 pr.2
          let hb := MeshHeap.transformAt (transFn endp) ha pr.2
          (hb, bcc.2 ++ [pr.2]))
        (acc.1, ([] : List ℕ))
      (inner.1, acc.2 ++ [(config.pendants.getD i ⟨"", ""⟩, sp, endp, inner.2)]))
    (h1, ([] : List (PendantConfig × Vec3 × Vec3 × List ℕ)))
  (phase2.2, phase2.1)

/-! ## Concrete inputs used by witnesses and the counterexample -/

/-- A trivial stand-in for the external rotation constructor. -/
def rot_id : ℝ → Vec3 → Vec3 → Vec3 := fun _ _ p => p

/-- A trivial stand-in for the external float32 packer. -/
def f32_zero : ℝ → List ℕ := fun _ => [0, 0, 0, 0]

/-- A trivial stand-in for the external JSON encoder. -/
def json_enc_empty : GltfDoc → List ℕ := fun _ => []

/-- A store with an empty template tuple for every model key. -/
def store_empty : MeshStore := fun _ => []

/-- A small single-pendant configuration. -/
def configW : ClusterConfig :=
  ⟨⟨.s, "canopy_black"⟩, ⟨"cable_black"⟩, ⟨.ring, 1400, 2000⟩,
   [⟨"denny", "shade_natural"⟩], 0⟩

/-- A single-vertex template at z = 300: signed extents (300, -300). -/
noncomputable def meshA : Mesh := ⟨[((0 : ℝ), 0, 300)], []⟩

/-- A single-vertex template at z = -300: signed extents (-300, 300). -/
noncomputable def meshB : Mesh := ⟨[((0 : ℝ), 0, -300)], []⟩

/-- Store for the counterexample: model "a" is `meshA`, model "b" is
`meshB`. -/
noncomputable def storeCX : MeshStore := fun k =>
  if k = "a" then [meshA] else if k = "b" then [meshB] else []

/-- Counterexample configuration: two pendants whose signed extents
(the spec's `PendantExtent` is explicitly signed) drive the second
cumulative drop negative (drops = [100, -400]) in a schema-valid
configuration (first 100 mm ≤ total 200 mm). -/
def configCX : ClusterConfig :=
  ⟨⟨.s, "canopy_black"⟩, ⟨"cable_black"⟩, ⟨.ring, 100, 200⟩,
   [⟨"a", "shade_natural"⟩, ⟨"b", "shade_natural"⟩], 0⟩

/-- Attachment points for the counterexample (both at the same spot, so
the angular sort keys are equal). -/
noncomputable def ptsCX : List Vec3 := [((1 : ℝ), 0, 0), ((1 : ℝ), 0, 0)]

/-- The frame property relating heaps: `h` extends `h0` — it is at least
as long and agrees with `h0` on every pre-existing cell. -/
def HeapPreserved {μ : Type} (h0 h : MeshHeap μ) : Prop :=
  h0.cells.length ≤ h.cells.length ∧ h.cells.take h0.cells.length = h0.cells

/-! ## Helper lemmas -/

lemma getD_map_range {α : Type} {n : ℕ} (f : ℕ → α) {i : ℕ} (d : α) (h : i < n) :
    ((List.range n).map f).getD i d = f i := by
  rw [List.getD_eq_getElem?_getD, List.getElem?_map, List.getElem?_range h]
  rfl

lemma getLastD_map_range {α : Type} (f : ℕ → α) (k : ℕ) (d : α) :
    ((List.range (k + 1)).map f).getLastD d = f k := by
  rw [List.range_succ, List.map_append]
  exact List.getLastD_concat _ _ _

lemma drops_fold_closed (first g : ℝ) (tops bottoms : List ℝ) (m : ℕ) :
    (List.range m).foldl
      (fun acc i => acc ++ [acc.getLastD 0 + bottoms.getD i 0 + tops.getD (i + 1) 0 + g])
      [first]
    = (List.range (m + 1)).map
        (fun i => first + ∑ j ∈ Finset.range i, (bottoms.getD j 0 + tops.getD (j + 1) 0 + g)) := by
  induction m with
  | zero =>
    rw [show List.range 1 = [0] from rfl]
    simp
  | succ m ih =>
    conv_lhs => rw [List.range_succ]
    rw [List.foldl_append, ih, List.foldl_cons, List.foldl_nil, getLastD_map_range]
    conv_rhs => rw [List.range_succ, List.map_append]
    congr 1
    have hx : first + ∑ j ∈ Finset.range m, (bottoms.getD j 0 + tops.getD (j + 1) 0 + g)
          + bottoms.getD m 0 + tops.getD (m + 1) 0 + g
        = first + ∑ j ∈ Finset.range (m + 1), (bottoms.getD j 0 + tops.getD (j + 1) 0 + g) := by
      rw [Finset.sum_range_succ]; ring
    rw [hx]
    simp

lemma python_drops_closed (first g : ℝ) (tops bottoms : List ℝ) (h : 1 ≤ tops.length) :
    python_drops first g tops bottoms
    = (List.range tops.length).map
        (fun i => first + ∑ j ∈ Finset.range i, (bottoms.getD j 0 + tops.getD (j + 1) 0 + g)) := by
  rw [python_drops, drops_fold_closed, Nat.sub_add_cancel h]

lemma first_seen_dedup_mem (l : List String) (a : String) :
    a ∈ first_seen_dedup l ↔ a ∈ l := by
  induction l using first_seen_dedup.induct with
  | case1 => simp [first_seen_dedup]
  | case2 k ks ih =>
    rw [first_seen_dedup]
    by_cases hak : a = k
    · simp [hak]
    · simp only [List.mem_cons, ih, List.mem_filter]
      constructor
      · rintro (h | ⟨h, _⟩)
        · exact Or.inl h
        · exact Or.inr h
      · rintro (h | h)
        · exact Or.inl h
        · exact Or.inr ⟨h, by simpa using hak⟩

lemma first_seen_dedup_nodup (l : List String) : (first_seen_dedup l).Nodup := by
  induction l using first_seen_dedup.induct with
  | case1 => simp [first_seen_dedup]
  | case2 k ks ih =>
    rw [first_seen_dedup]
    refine List.Nodup.cons ?_ ih
    intro hk
    have := (first_seen_dedup_mem _ _).mp hk
    simp [List.mem_filter] at this

lemma first_seen_dedup_sublist (l : List String) :
    List.Sublist (first_seen_dedup l) l := by
  induction l using first_seen_dedup.induct with
  | case1 => simp [first_seen_dedup]
  | case2 k ks ih =>
    rw [first_seen_dedup]
    exact List.Sublist.cons₂ k (ih.trans (List.filter_sublist ks))

lemma foldl_first_seen (l : List String) : ∀ acc : List String,
    l.foldl (fun a k => if k ∈ a then a else a ++ [k]) acc
    = acc ++ first_seen_dedup (l.filter (fun x => decide (x ∉ acc))) := by
  induction l with
  | nil => intro acc; simp [first_seen_dedup]
  | cons k ks ih =>
    intro acc
    by_cases hk : k ∈ acc
    · rw [List.foldl_cons, if_pos hk, ih acc]
      simp [List.filter_cons, hk]
    · rw [List.foldl_cons, if_neg hk, ih (acc ++ [k])]
      rw [List.filter_cons_of_pos (by simp [hk]), first_seen_dedup, List.filter_filter,
        List.append_assoc, List.singleton_append]
      congr 2
      congr 1
      apply List.filter_congr
      intro x _
      rw [← Bool.decide_and, decide_eq_decide]
      simp only [List.mem_append, List.mem_singleton, not_or]
      tauto

lemma readU32_u32le_append (k : ℕ) (rest : List ℕ) (h : k < 2 ^ 32) :
    readU32 (u32le k ++ rest) = k := by
  have h0 : (u32le k ++ rest).getD 0 0 = k % 256 := rfl
  have h1 : (u32le k ++ rest).getD 1 0 = k / 256 % 256 := rfl
  have h2 : (u32le k ++ rest).getD 2 0 = k / 2 ^ 16 % 256 := rfl
  have h3 : (u32le k ++ rest).getD 3 0 = k / 2 ^ 24 % 256 := rfl
  rw [readU32, h0, h1, h2, h3]
  omega

lemma length_pad_to_4 (data : List ℕ) :
    (pad_to_4 data).length = data.length + (4 - data.length % 4) % 4 := by
  simp [pad_to_4]

lemma length_pad_to_4_mod (data : List ℕ) : (pad_to_4 data).length % 4 = 0 := by
  rw [length_pad_to_4]
  omega

lemma length_pad_json_to_4 (data : List ℕ) :
    (pad_json_to_4 data).length = data.length + (4 - data.length % 4) % 4 := by
  simp [pad_json_to_4]

lemma length_pad_json_to_4_mod (data : List ℕ) : (pad_json_to_4 data).length % 4 = 0 := by
  rw [length_pad_json_to_4]
  omega

lemma take_set_of_le {α : Type} (l : List α) (r n : ℕ) (a : α) (h : n ≤ r) :
    (l.set r a).take n = l.take n := by
  apply List.ext_getElem
  · simp
  · intro i h1 h2
    have hi : i < n := lt_of_lt_of_le h1 (by rw [List.length_take]; exact min_le_left _ _)
    rw [List.getElem_take, List.getElem_take]
    exact List.getElem_set_ne (by omega) _

lemma heapPreserved_refl {μ : Type} (h : MeshHeap μ) : HeapPreserved h h :=
  ⟨le_refl _, List.take_length _⟩

lemma heapPreserved_alloc {μ : Type} {h0 h : MeshHeap μ} (m : μ)
    (hp : HeapPreserved h0 h) : HeapPreserved h0 (h.alloc m).1 := by
  obtain ⟨hlen, htake⟩ := hp
  refine ⟨?_, ?_⟩
  · simp only [MeshHeap.alloc, List.length_append, List.length_cons, List.length_nil]
    omega
  · simp only [MeshHeap.alloc]
    rw [List.take_append_of_le_length hlen, htake]

lemma heapPreserved_write_ge {μ : Type} {h0 h : MeshHeap μ} {r : ℕ} (m : μ)
    (hp : HeapPreserved h0 h) (hr : h0.cells.length ≤ r) :
    HeapPreserved h0 (h.write r m) := by
  obtain ⟨hlen, htake⟩ := hp
  refine ⟨?_, ?_⟩
  · simp only [MeshHeap.write, List.length_set]
    exact hlen
  · simp only [MeshHeap.write]
    rw [take_set_of_le _ _ _ _ hr, htake]

lemma heapPreserved_dup {μ : Type} [Inhabited μ] {h0 h : MeshHeap μ} (r : ℕ)
    (hp : HeapPreserved h0 h) : HeapPreserved h0 (h.dup r).1 :=
  heapPreserved_alloc _ hp

lemma heapPreserved_transformAt_ge {μ : Type} [Inhabited μ] {h0 h : MeshHeap μ}
    {r : ℕ} (f : μ → μ) (hp : HeapPreserved h0 h) (hr : h0.cells.length ≤ r) :
    HeapPreserved h0 (MeshHeap.transformAt f h r) :=
  heapPreserved_write_ge _ hp hr

lemma foldl_preserves {α β : Type} (P : β → Prop) (step : β → α → β)
    (hstep : ∀ b a, P b → P (step b a)) :
    ∀ (l : List α) (b : β), P b → P (l.foldl step b) := by
  intro l
  induction l with
  | nil => intro b hb; exact hb
  | cons x xs ih =>
    intro b hb
    rw [List.foldl_cons]
    exact ih _ (hstep b x hb)

lemma heapPreserved_dup_all {μ : Type} [Inhabited μ] {h0 : MeshHeap μ}
    (refs : List ℕ) :
    ∀ (st : MeshHeap μ × List ℕ), HeapPreserved h0 st.1 →
      HeapPreserved h0 (refs.foldl
        (fun acc r => let p := acc.1.dup r; (p.1, acc.2 ++ [p.2])) st).1 := by
  intro st hst
  refine foldl_preserves (fun s => HeapPreserved h0 s.1) _ ?_ refs st hst
  intro b a hb
  exact heapPreserved_dup a hb

/-! ## Claim theorems -/

/-- C2: for every configuration with at least one pendant,
`place_pendants_then_plan_cables` computes
`gap = (totalDrop - firstDrop - occupiedClearance) / (N - 1)` when
`N > 1` and `gap = 0` when `N ≤ 1`, where the occupied clearance is
`topExtent 0 + bottomExtent (N-1) + Σ (bottomExtent i + topExtent (i+1))`;
the cumulative drop of pendant `i` is
`firstDrop + Σ_{j<i} (bottomExtent j + topExtent (j+1) + gap)`, so a
single pendant receives exactly the first-drop length; and negative
slack is not rejected — the solver is total and silently yields a
negative gap. -/
theorem placement_gap_and_drops (store : MeshStore) (config : ClusterConfig)
    (hn : 1 ≤ config.pendants.length) :
    let n := config.pendants.length
    let tops := config.pendants.map (fun p => (pendant_extents (store p.model)).1)
    let bottoms := config.pendants.map (fun p => (pendant_extents (store p.model)).2)
    let first : ℝ := (config.layout.first_drop_mm : ℝ)
    let total : ℝ := (config.layout.total_drop_mm : ℝ)
    let occupied := occupied_clearance tops bottoms
    let g := layout_gap n first total occupied
    (1 < n → g = (total - first - occupied) / ((n : ℝ) - 1)) ∧
    (n ≤ 1 → g = 0) ∧
    (∀ i, i < n → (python_drops first g tops bottoms).getD i 0
        = first + ∑ j ∈ Finset.range i, (bottoms.getD j 0 + tops.getD (j + 1) 0 + g)) ∧
    (n = 1 → python_drops first g tops bottoms = [first]) ∧
    (1 < n → total - first - occupied < 0 → g < 0) := by
  intro n tops bottoms first total occupied g
  have htl : tops.length = n := List.length_map _ _
  refine ⟨?_, ?_, ?_, ?_, ?_⟩
  · intro h
    rw [show g = layout_gap n first total occupied from rfl, layout_gap, if_neg (by omega)]
  · intro h
    rw [show g = layout_gap n first total occupied from rfl, layout_gap, if_pos h]
  · intro i hi
    rw [python_drops_closed first g tops bottoms (by omega), htl,
      getD_map_range _ _ hi]
  · intro h1
    rw [python_drops_closed first g tops bottoms (by omega), htl, h1]
    rw [show List.range 1 = [0] from rfl]
    simp
  · intro h hneg
    rw [show g = layout_gap n first total occupied from rfl, layout_gap, if_neg (by omega)]
    apply div_neg_of_neg_of_pos hneg
    have : (1 : ℝ) < (n : ℝ) := by exact_mod_cast h
    linarith

/-- Witness for C2 at a concrete single-pendant configuration. -/
theorem placement_gap_and_drops_witness :
    1 ≤ configW.pendants.length ∧
    (let n := configW.pendants.length
     let tops := configW.pendants.map (fun p => (pendant_extents (store_empty p.model)).1)
     let bottoms := configW.pendants.map (fun p => (pendant_extents (store_empty p.model)).2)
     let first : ℝ := (configW.layout.first_drop_mm : ℝ)
     let total : ℝ := (configW.layout.total_drop_mm : ℝ)
     let occupied := occupied_clearance tops bottoms
     let g := layout_gap n first total occupied
     (1 < n → g = (total - first - occupied) / ((n : ℝ) - 1)) ∧
     (n ≤ 1 → g = 0) ∧
     (∀ i, i < n → (python_drops first g tops bottoms).getD i 0
         = first + ∑ j ∈ Finset.range i, (bottoms.getD j 0 + tops.getD (j + 1) 0 + g)) ∧
     (n = 1 → python_drops first g tops bottoms = [first]) ∧
     (1 < n → total - first - occupied < 0 → g < 0)) :=
  ⟨by decide, placement_gap_and_drops store_empty configW (by decide)⟩

/-- C3: layout conservation law — for more than one pendant and
nonnegative slack, first-drop plus the occupied clearance plus the
`N - 1` gap contributions sums exactly to the total-drop length. -/
theorem layout_conservation_law (store : MeshStore) (config : ClusterConfig) :
    let n := config.pendants.length
    let tops := config.pendants.map (fun p => (pendant_extents (store p.model)).1)
    let bottoms := config.pendants.map (fun p => (pendant_extents (store p.model)).2)
    let first : ℝ := (config.layout.first_drop_mm : ℝ)
    let total : ℝ := (config.layout.total_drop_mm : ℝ)
    let occupied := occupied_clearance tops bottoms
    1 < n → 0 ≤ total - first - occupied →
    first + occupied + ((n : ℝ) - 1) * layout_gap n first total occupied = total := by
  intro n tops bottoms first total occupied hn _hslack
  rw [layout_gap, if_neg (by omega)]
  have h1 : (1 : ℝ) < (n : ℝ) := by exact_mod_cast hn
  rw [mul_div_cancel₀ _ (by linarith : ((n : ℝ) - 1) ≠ 0)]
  ring

/-- Witness for C3 at a concrete two-pendant configuration with
nonnegative slack. -/
theorem layout_conservation_law_witness :
    1 < configCX.pendants.length ∧
    0 ≤ ((configCX.layout.total_drop_mm : ℝ)) - ((configCX.layout.first_drop_mm : ℝ))
      - occupied_clearance
          (configCX.pendants.map (fun p => (pendant_extents (store_empty p.model)).1))
          (configCX.pendants.map (fun p => (pendant_extents (store_empty p.model)).2)) ∧
    ((configCX.layout.first_drop_mm : ℝ))
      + occupied_clearance
          (configCX.pendants.map (fun p => (pendant_extents (store_empty p.model)).1))
          (configCX.pendants.map (fun p => (pendant_extents (store_empty p.model)).2))
      + ((configCX.pendants.length : ℝ) - 1)
        * layout_gap configCX.pendants.length ((configCX.layout.first_drop_mm : ℝ))
            ((configCX.layout.total_drop_mm : ℝ))
            (occupied_clearance
              (configCX.pendants.map (fun p => (pendant_extents (store_empty p.model)).1))
              (configCX.pendants.map (fun p => (pendant_extents (store_empty p.model)).2)))
      = ((configCX.layout.total_drop_mm : ℝ)) := by
  have hocc : occupied_clearance
      (configCX.pendants.map (fun p => (pendant_extents (store_empty p.model)).1))
      (configCX.pendants.map (fun p => (pendant_extents (store_empty p.model)).2)) = 0 := by
    simp [configCX, store_empty, pendant_extents, occupied_clearance]
  refine ⟨by decide, ?_, ?_⟩
  · rw [hocc]
    norm_num [configCX]
  · exact layout_conservation_law store_empty configCX (by decide)
      (by rw [hocc]; norm_num [configCX])

lemma getD_append_length {α : Type} (l : List α) (c d : α) (i : ℕ) (h : i = l.length) :
    (l ++ [c]).getD i d = c := by
  subst h
  rw [List.getD_append_right _ _ _ _ (le_refl _)]
  simp

lemma build_canopy_points_ring (size : CanopySize) (n : ℕ) :
    (build_canopy size n ClusterType.ring).2.2
    = (List.range n).map (fun i : ℕ =>
        ((((CANOPY_SPECS size).inner_radius_mm : ℝ) - ((CANOPY_SPECS size).cable_offset_mm : ℝ))
            * Real.cos (2 * Real.pi * (i : ℝ) / ((max 1 n : ℕ) : ℝ)),
         (((CANOPY_SPECS size).inner_radius_mm : ℝ) - ((CANOPY_SPECS size).cable_offset_mm : ℝ))
            * Real.sin (2 * Real.pi * (i : ℝ) / ((max 1 n : ℕ) : ℝ)),
         -((CANOPY_SPECS size).height_mm : ℝ))) := by
  simp only [build_canopy]
  rw [if_neg (by simp)]

lemma build_canopy_points_center (size : CanopySize) (n : ℕ) (ct : ClusterType)
    (hct : ct = ClusterType.ring_with_center ∨ ct = ClusterType.random_ring) :
    (build_canopy size n ct).2.2
    = (List.range (n - 1)).map (fun i : ℕ =>
        ((((CANOPY_SPECS size).inner_radius_mm : ℝ) - ((CANOPY_SPECS size).cable_offset_mm : ℝ))
            * Real.cos (2 * Real.pi * (i : ℝ) / ((max 1 (n - 1) : ℕ) : ℝ)),
         (((CANOPY_SPECS size).inner_radius_mm : ℝ) - ((CANOPY_SPECS size).cable_offset_mm : ℝ))
            * Real.sin (2 * Real.pi * (i : ℝ) / ((max 1 (n - 1) : ℕ) : ℝ)),
         -((CANOPY_SPECS size).height_mm : ℝ)))
      ++ [((0 : ℝ), (0 : ℝ), -((CANOPY_SPECS size).height_mm : ℝ))] := by
  simp only [build_canopy]
  rw [if_pos hct]

lemma ring_point_on_circle (cr a : ℝ) :
    (cr * Real.cos a) ^ 2 + (cr * Real.sin a) ^ 2 = cr ^ 2 := by
  have h : (cr * Real.cos a) ^ 2 + (cr * Real.sin a) ^ 2
      = cr ^ 2 * (Real.cos a ^ 2 + Real.sin a ^ 2) := by ring
  rw [h, Real.cos_sq_add_sin_sq, mul_one]

/-- C4: `build_canopy` returns, for ring topology, exactly N attachment
points on the circle of radius (inner radius - cable offset) with point
i at angle 2π·i/N and no center point; for ring_with_center and
random_ring, exactly N points whose first N-1 are evenly spaced on that
circle (angle 2π·i/(N-1)) and whose last is the canopy center (0, 0),
with only the center point when N = 1; and all points share the
canopy's base Z coordinate. -/
theorem build_canopy_attachment_points (size : CanopySize) (n : ℕ) (ct : ClusterType)
    (hn : 1 ≤ n) :
    let conn_r : ℝ :=
      ((CANOPY_SPECS size).inner_radius_mm : ℝ) - ((CANOPY_SPECS size).cable_offset_mm : ℝ)
    let zc : ℝ := -((CANOPY_SPECS size).height_mm : ℝ)
    let pts := (build_canopy size n ct).2.2
    pts.length = n ∧
    (∀ p ∈ pts, p.2.2 = zc) ∧
    (ct = ClusterType.ring →
      ∀ i, i < n →
        pts.getD i ((0 : ℝ), 0, 0)
            = (conn_r * Real.cos (2 * Real.pi * (i : ℝ) / (n : ℝ)),
               conn_r * Real.sin (2 * Real.pi * (i : ℝ) / (n : ℝ)), zc)
          ∧ (pts.getD i ((0 : ℝ), 0, 0)).1 ^ 2 + (pts.getD i ((0 : ℝ), 0, 0)).2.1 ^ 2
              = conn_r ^ 2) ∧
    ((ct = ClusterType.ring_with_center ∨ ct = ClusterType.random_ring) →
      (∀ i, i < n - 1 →
        pts.getD i ((0 : ℝ), 0, 0)
            = (conn_r * Real.cos (2 * Real.pi * (i : ℝ) / ((n : ℝ) - 1)),
               conn_r * Real.sin (2 * Real.pi * (i : ℝ) / ((n : ℝ) - 1)), zc)
          ∧ (pts.getD i ((0 : ℝ), 0, 0)).1 ^ 2 + (pts.getD i ((0 : ℝ), 0, 0)).2.1 ^ 2
              = conn_r ^ 2) ∧
      pts.getD (n - 1) ((0 : ℝ), 0, 0) = ((0 : ℝ), 0, zc) ∧
      (n = 1 → pts = [((0 : ℝ), 0, zc)])) := by
  intro conn_r zc pts
  have hcase : ct = ClusterType.ring
      ∨ (ct = ClusterType.ring_with_center ∨ ct = ClusterType.random_ring) := by
    cases ct <;> simp
  rcases hcase with rfl | hc
  · have hpts : pts = (List.range n).map (fun i : ℕ =>
        (conn_r * Real.cos (2 * Real.pi * (i : ℝ) / ((max 1 n : ℕ) : ℝ)),
         conn_r * Real.sin (2 * Real.pi * (i : ℝ) / ((max 1 n : ℕ) : ℝ)), zc)) :=
      build_canopy_points_ring size n
    have hmax : (max 1 n : ℕ) = n := Nat.max_eq_right hn
    refine ⟨?_, ?_, ?_, ?_⟩
    · rw [hpts]; simp
    · intro p hp
      rw [hpts] at hp
      obtain ⟨i, _, rfl⟩ := List.mem_map.mp hp
      rfl
    · intro _ i hi
      rw [hpts, getD_map_range _ _ hi, hmax]
      exact ⟨rfl, ring_point_on_circle _ _⟩
    · intro h
      exact absurd h (by simp)
  · have hpts : pts = (List.range (n - 1)).map (fun i : ℕ =>
        (conn_r * Real.cos (2 * Real.pi * (i : ℝ) / ((max 1 (n - 1) : ℕ) : ℝ)),
         conn_r * Real.sin (2 * Real.pi * (i : ℝ) / ((max 1 (n - 1) : ℕ) : ℝ)), zc))
        ++ [((0 : ℝ), (0 : ℝ), zc)] :=
      build_canopy_points_center size n ct hc
    refine ⟨?_, ?_, ?_, ?_⟩
    · rw [hpts]
      simp only [List.length_append, List.length_map, List.length_range,
        List.length_singleton]
      omega
    · intro p hp
      rw [hpts] at hp
      rcases List.mem_append.mp hp with h | h
      · obtain ⟨i, _, rfl⟩ := List.mem_map.mp h
        rfl
      · rw [List.mem_singleton.mp h]
    · intro h
      rcases hc with rfl | rfl <;> simp at h
    · intro _
      refine ⟨?_, ?_, ?_⟩
      · intro i hi
        have hmax : (max 1 (n - 1) : ℕ) = n - 1 := Nat.max_eq_right (by omega)
        have hcast : ((n - 1 : ℕ) : ℝ) = (n : ℝ) - 1 := by
          rw [Nat.cast_sub hn, Nat.cast_one]
        rw [hpts, List.getD_append _ _ _ _ (by simpa using hi),
          getD_map_range _ _ hi, hmax, hcast]
        exact ⟨rfl, ring_point_on_circle _ _⟩
      · have hlen : ((List.range (n - 1)).map (fun i : ℕ =>
            (conn_r * Real.cos (2 * Real.pi * (i : ℝ) / ((max 1 (n - 1) : ℕ) : ℝ)),
             conn_r * Real.sin (2 * Real.pi * (i : ℝ) / ((max 1 (n - 1) : ℕ) : ℝ)), zc))).length
            = n - 1 := by simp
        rw [hpts]
        exact getD_append_length _ _ _ _ hlen.symm
      · intro h1
        rw [hpts, h1]
        simp

/-- Witness for C4 at the small canopy with one pendant and center
topology. -/
theorem build_canopy_attachment_points_witness :
    1 ≤ 1 ∧
    (let conn_r : ℝ := ((CANOPY_SPECS CanopySize.s).inner_radius_mm : ℝ)
        - ((CANOPY_SPECS CanopySize.s).cable_offset_mm : ℝ)
     let zc : ℝ := -((CANOPY_SPECS CanopySize.s).height_mm : ℝ)
     let pts := (build_canopy CanopySize.s 1 ClusterType.ring_with_center).2.2
     pts.length = 1 ∧
     (∀ p ∈ pts, p.2.2 = zc) ∧
     (ClusterType.ring_with_center = ClusterType.ring →
       ∀ i, i < 1 →
         pts.getD i ((0 : ℝ), 0, 0)
             = (conn_r * Real.cos (2 * Real.pi * (i : ℝ) / ((1 : ℕ) : ℝ)),
                conn_r * Real.sin (2 * Real.pi * (i : ℝ) / ((1 : ℕ) : ℝ)), zc)
           ∧ (pts.getD i ((0 : ℝ), 0, 0)).1 ^ 2 + (pts.getD i ((0 : ℝ), 0, 0)).2.1 ^ 2
               = conn_r ^ 2) ∧
     ((ClusterType.ring_with_center = ClusterType.ring_with_center
         ∨ ClusterType.ring_with_center = ClusterType.random_ring) →
       (∀ i, i < 1 - 1 →
         pts.getD i ((0 : ℝ), 0, 0)
             = (conn_r * Real.cos (2 * Real.pi * (i : ℝ) / (((1 : ℕ) : ℝ) - 1)),
                conn_r * Real.sin (2 * Real.pi * (i : ℝ) / (((1 : ℕ) : ℝ) - 1)), zc)
           ∧ (pts.getD i ((0 : ℝ), 0, 0)).1 ^ 2 + (pts.getD i ((0 : ℝ), 0, 0)).2.1 ^ 2
               = conn_r ^ 2) ∧
       pts.getD (1 - 1) ((0 : ℝ), 0, 0) = ((0 : ℝ), 0, zc) ∧
       (1 = 1 → pts = [((0 : ℝ), 0, zc)]))) :=
  ⟨le_refl 1,
   build_canopy_attachment_points CanopySize.s 1 ClusterType.ring_with_center (le_refl 1)⟩

/-- C5: the exported container is the 12-byte header (magic, version 2,
total length), a JSON chunk space-padded to a 4-byte boundary and a
binary chunk zero-padded to a 4-byte boundary, each preceded by its own
8-byte (length, type tag) header; both chunk lengths are multiples of
4; the container's byte count is exactly
12 + 8 + paddedJson + 8 + paddedBin; and (whenever that sum fits in 32
bits, as `struct.pack` requires) the header's total-length field decodes
to exactly that sum. -/
theorem glb_container_framing (jsonPayload binPayload : List ℕ) :
    (let json_chunk := pad_json_to_4 jsonPayload
     let bin_chunk := pad_to_4 binPayload
     let total := 12 + 8 + json_chunk.length + 8 + bin_chunk.length
     glb_container jsonPayload binPayload
         = (glbMagic ++ u32le 2 ++ u32le total)
           ++ (u32le json_chunk.length ++ jsonChunkTag) ++ json_chunk
           ++ (u32le bin_chunk.length ++ binChunkTag) ++ bin_chunk ∧
     json_chunk.length % 4 = 0 ∧
     bin_chunk.length % 4 = 0 ∧
     (glb_container jsonPayload binPayload).length = total ∧
     (total < 2 ^ 32 →
       readU32 ((glb_container jsonPayload binPayload).drop 8) = total)) := by
  intro json_chunk bin_chunk total
  refine ⟨rfl, length_pad_json_to_4_mod _, length_pad_to_4_mod _, ?_, ?_⟩
  · simp only [glb_container, List.length_append, glbMagic, jsonChunkTag, binChunkTag,
      u32le, List.length_cons, List.length_nil]
    try omega
  · intro hlt
    have hdrop : (glb_container jsonPayload binPayload).drop 8
        = u32le total ++ ((u32le json_chunk.length ++ jsonChunkTag) ++ json_chunk
          ++ (u32le bin_chunk.length ++ binChunkTag) ++ bin_chunk) := by
      simp only [glb_container, glbMagic, u32le]
      rfl
    rw [hdrop, readU32_u32le_append _ _ hlt]

/-- Witness for C5 at a concrete one-byte JSON payload and empty binary
payload. -/
theorem glb_container_framing_witness :
    (12 + 8 + (pad_json_to_4 [123]).length + 8 + (pad_to_4 []).length < 2 ^ 32) ∧
    (let json_chunk := pad_json_to_4 [123]
     let bin_chunk := pad_to_4 []
     let total := 12 + 8 + json_chunk.length + 8 + bin_chunk.length
     glb_container [123] []
         = (glbMagic ++ u32le 2 ++ u32le total)
           ++ (u32le json_chunk.length ++ jsonChunkTag) ++ json_chunk
           ++ (u32le bin_chunk.length ++ binChunkTag) ++ bin_chunk ∧
     json_chunk.length % 4 = 0 ∧
     bin_chunk.length % 4 = 0 ∧
     (glb_container [123] []).length = total ∧
     (total < 2 ^ 32 →
       readU32 ((glb_container [123] []).drop 8) = total)) :=
  ⟨by decide, glb_container_framing [123] []⟩

/-- C6: in export a mesh group gets cylindrical UVs exactly when its
material key starts with "shade_" (`u = atan2(y, x)/2π + 0.5`,
`v = z/500 + 0.5`, from the pre-conversion millimeter Z-up
coordinates); every other key gets planar UVs (`u = x/500 + 0.5`,
`v = y/500 + 0.5`); and the vertex (0, 100, 250) under cylindrical
mapping yields u = 0.75, v = 1. -/
theorem uv_mapping_by_material_key (key : String) (m : Mesh) :
    (mapping_type_from_material_key key = "cylindrical"
      ↔ key.startsWith shade_key_start) ∧
    (mesh_to_arrays m (mapping_type_from_material_key key)).2.1
      = m.verts.flatMap (fun v =>
          if key.startsWith shade_key_start then
            [math_atan2 v.2.1 v.1 / (2 * Real.pi) + 0.5, v.2.2 / 500 + 0.5]
          else
            [v.1 / 500 + 0.5, v.2.1 / 500 + 0.5]) ∧
    compute_cylindrical_uv 0 100 250 = (0.75, (1 : ℝ)) := by
  refine ⟨?_, ?_, ?_⟩
  · constructor
    · intro h
      by_contra hs
      rw [mapping_type_from_material_key, if_neg hs] at h
      exact absurd h (by decide)
    · intro hs
      rw [mapping_type_from_material_key, if_pos hs]
  · by_cases hs : key.startsWith shade_key_start
    · rw [mapping_type_from_material_key, if_pos hs]
      simp [mesh_to_arrays, compute_cylindrical_uv, hs]
    · rw [mapping_type_from_material_key, if_neg hs]
      simp [mesh_to_arrays, compute_planar_uv, hs]
  · rw [compute_cylindrical_uv, math_atan2]
    rw [if_neg (by norm_num), if_neg (by norm_num), if_pos (by norm_num)]
    have hpi : Real.pi / 2 / (2 * Real.pi) = 1 / 4 := by
      rw [div_div, show (2 : ℝ) * (2 * Real.pi) = 4 * Real.pi by ring,
        div_eq_iff (by positivity : (4 : ℝ) * Real.pi ≠ 0)]
      ring
    rw [hpi]
    norm_num

/-- C7: `build_mesh_groups` emits, in order, the canopy bottom disc, the
canopy top disc, all cable meshes in placement order, then each
placement's meshes, tagged with the canopy, cable and pendant-shade
material keys respectively; and the returned material-key list is the
group key sequence with each distinct key exactly once, in first-seen
order. -/
theorem build_mesh_groups_order_and_keys (Rot : ℝ → Vec3 → Vec3 → Vec3)
    (store : MeshStore) (config : ClusterConfig) :
    let canopy := build_canopy config.canopy.size config.num_pendants
      config.layout.cluster_type
    let placements := place_pendants_then_plan_cables Rot store config canopy.2.2
    let cables := (build_cables_from_placements Rot placements).1
    let built := build_mesh_groups Rot store config
    built.1 = [(canopy.1, config.canopy.appearance), (canopy.2.1, config.canopy.appearance)]
        ++ cables.map (fun cm => (cm, config.cable.appearance))
        ++ placements.flatMap (fun pl =>
            pl.meshes.map (fun pm => (pm, pl.pendant.appearance))) ∧
    built.2 = first_seen_dedup (built.1.map Prod.snd) ∧
    built.2.Nodup ∧
    (∀ k, k ∈ built.2 ↔ k ∈ built.1.map Prod.snd) ∧
    List.Sublist built.2 (built.1.map Prod.snd) ∧
    (∀ k ∈ built.2, built.2.count k = 1) := by
  intro canopy placements cables built
  have hkeys : built.2 = first_seen_dedup (built.1.map Prod.snd) := by
    have h1 : built.2
        = (built.1.map Prod.snd).foldl
            (fun acc k => if k ∈ acc then acc else acc ++ [k]) [] := by
      rw [List.foldl_map]
      rfl
    rw [h1, foldl_first_seen]
    have h2 : ((built.1.map Prod.snd).filter
        (fun x => decide (x ∉ ([] : List String)))) = built.1.map Prod.snd := by
      simp
    rw [h2]
    rfl
  refine ⟨rfl, hkeys, ?_, ?_, ?_, ?_⟩
  · rw [hkeys]; exact first_seen_dedup_nodup _
  · intro k; rw [hkeys]; exact first_seen_dedup_mem _ _
  · rw [hkeys]; exact first_seen_dedup_sublist _
  · intro k hk
    exact List.count_eq_one_of_mem (by rw [hkeys]; exact first_seen_dedup_nodup _) hk

/-- Witness for C7 at a concrete configuration. -/
theorem build_mesh_groups_order_and_keys_witness :
    (let canopy := build_canopy configW.canopy.size configW.num_pendants
       configW.layout.cluster_type
     let placements := place_pendants_then_plan_cables rot_id store_empty configW canopy.2.2
     let cables := (build_cables_from_placements rot_id placements).1
     let built := build_mesh_groups rot_id store_empty configW
     built.1 = [(canopy.1, configW.canopy.appearance), (canopy.2.1, configW.canopy.appearance)]
         ++ cables.map (fun cm => (cm, configW.cable.appearance))
         ++ placements.flatMap (fun pl =>
             pl.meshes.map (fun pm => (pm, pl.pendant.appearance))) ∧
     built.2 = first_seen_dedup (built.1.map Prod.snd) ∧
     built.2.Nodup ∧
     (∀ k, k ∈ built.2 ↔ k ∈ built.1.map Prod.snd) ∧
     List.Sublist built.2 (built.1.map Prod.snd) ∧
     (∀ k ∈ built.2, built.2.count k = 1)) :=
  build_mesh_groups_order_and_keys rot_id store_empty configW

lemma build_cables_foldl (Rot : ℝ → Vec3 → Vec3 → Vec3) :
    ∀ (placements : List PendantPlacement) (acc : List Mesh × List Vec3),
      placements.foldl
        (fun acc pl =>
          if vector_length (segment_vector pl) < 1e-6 then acc
          else (acc.1 ++ [cable_mesh_of Rot pl], acc.2 ++ [pl.ending])) acc
      = (acc.1 ++ (placements.filter long_enough).map (cable_mesh_of Rot),
         acc.2 ++ (placements.filter long_enough).map PendantPlacement.ending) := by
  intro placements
  induction placements with
  | nil => intro acc; simp
  | cons pl ps ih =>
    intro acc
    rw [List.foldl_cons]
    by_cases h : vector_length (segment_vector pl) < 1e-6
    · rw [if_pos h, ih, List.filter_cons_of_neg (by simp [long_enough, h])]
    · rw [if_neg h, ih, List.filter_cons_of_pos (by simp [long_enough, h])]
      simp [List.append_assoc]

/-- C8: `build_cables_from_placements` emits no cable mesh (and no end
point) for any placement whose segment length is below 1e-6 — such
placements are skipped silently by a total function — while every
placement with segment length at least 1e-6 contributes exactly one
cable mesh: the cylinder of that segment's length rotated to the
segment direction and translated to the start point
(`cable_mesh_of`). -/
theorem cables_skip_degenerate (Rot : ℝ → Vec3 → Vec3 → Vec3)
    (placements : List PendantPlacement) :
    build_cables_from_placements Rot placements
      = ((placements.filter long_enough).map (cable_mesh_of Rot),
         (placements.filter long_enough).map PendantPlacement.ending) ∧
    ∀ pl : PendantPlacement,
      (long_enough pl = true ↔ ¬ vector_length (segment_vector pl) < 1e-6) := by
  constructor
  · rw [build_cables_from_placements, build_cables_foldl]
    simp
  · intro pl
    simp [long_enough]

lemma heapPreserved_inner_step {μ : Type} [Inhabited μ] {h0 : MeshHeap μ}
    (rot trans : μ → μ) (h : MeshHeap μ) (r : ℕ) (hb : HeapPreserved h0 h) :
    HeapPreserved h0 (MeshHeap.transformAt trans
      (MeshHeap.transformAt rot (h.dup r).1 (h.dup r).2) (h.dup r).2) := by
  have h1 := heapPreserved_dup r hb
  have hr : h0.cells.length ≤ (h.dup r).2 := hb.1
  exact heapPreserved_transformAt_ge _ (heapPreserved_transformAt_ge _ h1 hr) hr

/-- C9: the planning call never mutates the shared pendant templates —
in the reference-semantics model, every heap cell that exists before
`place_pendants_heap` (in particular every template mesh the memoized
store points at) is unchanged in the final heap: all rotations and
translations are applied in place only to freshly duplicated cells. -/
theorem templates_never_mutated {μ : Type} [Inhabited μ]
    (rotFn : ℝ → μ → μ) (transFn : Vec3 → μ → μ)
    (store_refs : String → List ℕ) (extentsOf : String → ℝ × ℝ)
    (config : ClusterConfig) (connection_points : List Vec3)
    (h0 : MeshHeap μ) :
    ((place_pendants_heap rotFn transFn store_refs extentsOf config
        connection_points h0).2).cells.take h0.cells.length = h0.cells := by
  have main : HeapPreserved h0
      (place_pendants_heap rotFn transFn store_refs extentsOf config
        connection_points h0).2 := by
    simp only [place_pendants_heap]
    refine foldl_preserves
      (fun s : MeshHeap μ × List (PendantConfig × Vec3 × Vec3 × List ℕ) =>
        HeapPreserved h0 s.1) _ ?_ _ _ ?_
    · intro b i hb
      refine foldl_preserves
        (fun s : MeshHeap μ × List ℕ => HeapPreserved h0 s.1) _ ?_ _ _ hb
      intro bcc r hbcc
      exact heapPreserved_inner_step _ _ _ _ hbcc
    · refine foldl_preserves
        (fun s : MeshHeap μ × List (List ℕ) => HeapPreserved h0 s.1) _ ?_ _ _
        (heapPreserved_refl h0)
      intro b p hb
      exact heapPreserved_dup_all _ _ hb
  exact main.2

/-- Witness for C9 at a concrete heap and configuration. -/
theorem templates_never_mutated_witness :
    ((place_pendants_heap (fun _ m => m) (fun _ m => m) (fun _ => [0])
        (fun _ => (0, 0)) configW [] (⟨[7]⟩ : MeshHeap ℕ)).2).cells.take
      (⟨[7]⟩ : MeshHeap ℕ).cells.length = (⟨[7]⟩ : MeshHeap ℕ).cells :=
  templates_never_mutated (fun _ m => m) (fun _ m => m) (fun _ => [0])
    (fun _ => (0, 0)) configW [] ⟨[7]⟩

/-- C1: the full pipeline is a deterministic function of the
configuration — for a fixed rotation backend, float packer, JSON
encoder and template store, two runs on equal configurations produce
byte-identical containers, and the planning stage is a deterministic
function of (config, connection points): in the embedding every draw of
randomness (shuffle and twists) is threaded explicitly from a single
`PyRandom` generator created from `config.random_seed` alone, so no
other input exists. -/
theorem pipeline_deterministic (Rot : ℝ → Vec3 → Vec3 → Vec3)
    (f32 : ℝ → List ℕ) (jsonEnc : GltfDoc → List ℕ) (store : MeshStore)
    (c₁ c₂ : ClusterConfig) (h : c₁ = c₂) :
    config_to_glb_bytes Rot f32 jsonEnc store c₁
        = config_to_glb_bytes Rot f32 jsonEnc store c₂ ∧
    ∀ pts : List Vec3,
      place_pendants_then_plan_cables Rot store c₁ pts
        = place_pendants_then_plan_cables Rot store c₂ pts := by
  subst h
  exact ⟨rfl, fun _ => rfl⟩

/-- Witness for C1: two runs at a concrete configuration. -/
theorem pipeline_deterministic_witness :
    configW = configW ∧
    (config_to_glb_bytes rot_id f32_zero json_enc_empty store_empty configW
        = config_to_glb_bytes rot_id f32_zero json_enc_empty store_empty configW ∧
     ∀ pts : List Vec3,
       place_pendants_then_plan_cables rot_id store_empty configW pts
         = place_pendants_then_plan_cables rot_id store_empty configW pts) :=
  ⟨rfl, pipeline_deterministic rot_id f32_zero json_enc_empty store_empty
    configW configW rfl⟩

/-- C10 (amended): for every placement produced by
`place_pendants_then_plan_cables`, the end point is
(start.X, start.Y, start.Z - drop) for that pendant's cumulative drop —
start and end share their X and Y coordinates, so every planned cable
segment is exactly vertical — and the segment's length equals the
absolute value of the cumulative drop (equal to the drop itself exactly
when the drop is nonnegative). -/
theorem placement_vertical_segments (Rot : ℝ → Vec3 → Vec3 → Vec3)
    (store : MeshStore) (config : ClusterConfig) (pts : List Vec3) :
    let n := config.pendants.length
    let tops := config.pendants.map (fun p => (pendant_extents (store p.model)).1)
    let bottoms := config.pendants.map (fun p => (pendant_extents (store p.model)).2)
    let first : ℝ := (config.layout.first_drop_mm : ℝ)
    let total : ℝ := (config.layout.total_drop_mm : ℝ)
    let g := layout_gap n first total (occupied_clearance tops bottoms)
    let drops := python_drops first g tops bottoms
    ∀ i, i < n →
      ((place_pendants_then_plan_cables Rot store config pts).getD i default).ending
          = (((place_pendants_then_plan_cables Rot store config pts).getD i default).start.1,
             ((place_pendants_then_plan_cables Rot store config pts).getD i default).start.2.1,
             ((place_pendants_then_plan_cables Rot store config pts).getD i default).start.2.2
               - drops.getD i 0) ∧
      vector_length (segment_vector
          ((place_pendants_then_plan_cables Rot store config pts).getD i default))
        = |drops.getD i 0| := by
  intro n tops bottoms first total g drops i hi
  have hend : ((place_pendants_then_plan_cables Rot store config pts).getD i default).ending
      = (((place_pendants_then_plan_cables Rot store config pts).getD i default).start.1,
         ((place_pendants_then_plan_cables Rot store config pts).getD i default).start.2.1,
         ((place_pendants_then_plan_cables Rot store config pts).getD i default).start.2.2
           - drops.getD i 0) := by
    simp only [place_pendants_then_plan_cables]
    rw [getD_map_range _ _ hi]
  refine ⟨hend, ?_⟩
  have hseg : segment_vector
      ((place_pendants_then_plan_cables Rot store config pts).getD i default)
      = (0, 0, -(drops.getD i 0)) := by
    rw [segment_vector, hend]
    simp
  rw [hseg, vector_length]
  rw [show (0 : ℝ) ^ 2 + (0 : ℝ) ^ 2 + (-(drops.getD i 0)) ^ 2 = (drops.getD i 0) ^ 2 by ring]
  exact Real.sqrt_sq_eq_abs _

/-- Witness for the amended C10 at a concrete configuration. -/
theorem placement_vertical_segments_witness :
    0 < configW.pendants.length ∧
    (let n := configW.pendants.length
     let tops := configW.pendants.map (fun p => (pendant_extents (store_empty p.model)).1)
     let bottoms := configW.pendants.map (fun p => (pendant_extents (store_empty p.model)).2)
     let first : ℝ := (configW.layout.first_drop_mm : ℝ)
     let total : ℝ := (configW.layout.total_drop_mm : ℝ)
     let g := layout_gap n first total (occupied_clearance tops bottoms)
     let drops := python_drops first g tops bottoms
     ((place_pendants_then_plan_cables rot_id store_empty configW []).getD 0 default).ending
         = (((place_pendants_then_plan_cables rot_id store_empty configW []).getD 0 default).start.1,
            ((place_pendants_then_plan_cables rot_id store_empty configW []).getD 0 default).start.2.1,
            ((place_pendants_then_plan_cables rot_id store_empty configW []).getD 0 default).start.2.2
              - drops.getD 0 0) ∧
     vector_length (segment_vector
         ((place_pendants_then_plan_cables rot_id store_empty configW []).getD 0 default))
       = |drops.getD 0 0|) :=
  ⟨by decide, (placement_vertical_segments rot_id store_empty configW []) 0 (by decide)⟩

/-- Counterexample to C10 as stated: at this schema-valid configuration
and template store, the second placement's planned cable segment has
length 400 while that pendant's cumulative drop is -400 — the segment
length is the absolute value of the drop, not the drop itself. -/
theorem placement_segment_length_counterexample :
    let tops := configCX.pendants.map (fun p => (pendant_extents (storeCX p.model)).1)
    let bottoms := configCX.pendants.map (fun p => (pendant_extents (storeCX p.model)).2)
    let first : ℝ := (configCX.layout.first_drop_mm : ℝ)
    let total : ℝ := (configCX.layout.total_drop_mm : ℝ)
    let g := layout_gap configCX.pendants.length first total
      (occupied_clearance tops bottoms)
    let drops := python_drops first g tops bottoms
    drops.getD 1 0 = -400 ∧
    vector_length (segment_vector
        ((place_pendants_then_plan_cables rot_id storeCX configCX ptsCX).getD 1 default))
      = 400 ∧
    vector_length (segment_vector
        ((place_pendants_then_plan_cables rot_id storeCX configCX ptsCX).getD 1 default))
      ≠ drops.getD 1 0 := by
  intro tops bottoms first total g drops
  have htops : tops = [(300 : ℝ), -300] := by
    show configCX.pendants.map (fun p => (pendant_extents (storeCX p.model)).1)
      = [(300 : ℝ), -300]
    simp [configCX, storeCX, pendant_extents, meshA, meshB]
  have hbottoms : bottoms = [(-300 : ℝ), 300] := by
    show configCX.pendants.map (fun p => (pendant_extents (storeCX p.model)).2)
      = [(-300 : ℝ), 300]
    simp [configCX, storeCX, pendant_extents, meshA, meshB]
  have hfirst : first = 100 := by
    show ((configCX.layout.first_drop_mm : ℤ) : ℝ) = 100
    norm_num [configCX]
  have htotal : total = 200 := by
    show ((configCX.layout.total_drop_mm : ℤ) : ℝ) = 200
    norm_num [configCX]
  have hocc : occupied_clearance tops bottoms = 0 := by
    rw [htops, hbottoms, occupied_clearance]
    norm_num
  have hg : g = 100 := by
    show layout_gap configCX.pendants.length first total
      (occupied_clearance tops bottoms) = 100
    rw [hocc, hfirst, htotal, layout_gap, if_neg (by norm_num [configCX])]
    norm_num [configCX]
  have hdrops : drops.getD 1 0 = -400 := by
    show (python_drops first g tops bottoms).getD 1 0 = -400
    rw [htops, hbottoms, hfirst, hg, python_drops]
    norm_num
    rw [show List.range 1 = [0] from rfl]
    simp
    norm_num
  have hend : ((place_pendants_then_plan_cables rot_id storeCX configCX ptsCX).getD
        1 default).ending
      = (((place_pendants_then_plan_cables rot_id storeCX configCX ptsCX).getD
            1 default).start.1,
         ((place_pendants_then_plan_cables rot_id storeCX configCX ptsCX).getD
            1 default).start.2.1,
         ((place_pendants_then_plan_cables rot_id storeCX configCX ptsCX).getD
            1 default).start.2.2 - drops.getD 1 0) := by
    simp only [place_pendants_then_plan_cables]
    rw [getD_map_range _ _ (show 1 < configCX.pendants.length by decide)]
  have hseg : segment_vector
      ((place_pendants_then_plan_cables rot_id storeCX configCX ptsCX).getD 1 default)
      = (0, 0, -(drops.getD 1 0)) := by
    rw [segment_vector, hend]
    simp
  have hlen : vector_length (segment_vector
      ((place_pendants_then_plan_cables rot_id storeCX configCX ptsCX).getD 1 default))
      = 400 := by
    rw [hseg, hdrops, vector_length]
    rw [show (0 : ℝ) ^ 2 + (0 : ℝ) ^ 2 + (-(-400 : ℝ)) ^ 2 = 400 ^ 2 by ring]
    rw [Real.sqrt_sq (by norm_num : (0 : ℝ) ≤ 400)]
  refine ⟨hdrops, hlen, ?_⟩
  rw [hlen, hdrops]
  norm_num
